import Mathlib

set_option maxRecDepth 40000

/-!
Verification of the git-backed task store (`git_storage.py`) and the sync
manager (`sync_manager.py`) of the claude-task-manager repository.

The Python code is shallowly embedded:

* `hashlib.sha256(...).hexdigest()` is embedded as a full SHA-256
  implementation over byte lists (`Nat` values `< 256`), with the UTF-8
  encoding of the hashed string made explicit, and validated below against
  the FIPS 180-4 test vectors for `""` and `"abc"`.
* the `tasks/` directory of the working tree is a list of
  `(file-stem, content)` pairs, where `content = none` models a file that
  `json.loads` fails to parse (a corrupt document) and `content = some t`
  a well-formed task document;
* every operation that reads the wall clock (`datetime.now().isoformat()`)
  takes the produced timestamp string as an explicit `now` argument;
* `list.sort(key=..., reverse=True)` / `sorted(..., key=...)` (CPython's
  stable sort) are embedded as `List.insertionSort` with the corresponding
  total preorder: both are stable sorts for the same preorder, hence agree;
* the git subprocess layer (`_git_pull`, `SyncManager.sync_now`) is embedded
  as a transition function on an abstract repository state together with the
  trace of git commands the code issues; the effect of a conflicting
  `git pull --rebase` (it stops mid-rebase, leaving the rebase in progress,
  with a non-zero exit code) is standard git behaviour;
* `_git_commit_and_push` and `_update_project_stats` only touch the git
  object store and the `projects/` directory, never `tasks/`; none of the
  properties below observes them, so the task-directory model elides them.
-/

/-! ### SHA-256 (the `hashlib.sha256` used by `_task_id_from_name`) -/

/-- Truncate to a 32-bit word, as every SHA-256 operation does. -/
def w32 (n : Nat) : Nat := n % 4294967296

/-- Rotate a 32-bit word right by `k` bits. -/
def rotr (k x : Nat) : Nat := w32 ((x >>> k) ||| (x <<< (32 - k)))

/-- Bitwise complement within 32 bits. -/
def bnot32 (x : Nat) : Nat := x ^^^ 4294967295

/-- SHA-256 big sigma 0. -/
def bsig0 (x : Nat) : Nat := (rotr 2 x) ^^^ (rotr 13 x) ^^^ (rotr 22 x)

/-- SHA-256 big sigma 1. -/
def bsig1 (x : Nat) : Nat := (rotr 6 x) ^^^ (rotr 11 x) ^^^ (rotr 25 x)

/-- SHA-256 small sigma 0. -/
def ssig0 (x : Nat) : Nat := (rotr 7 x) ^^^ (rotr 18 x) ^^^ (x >>> 3)

/-- SHA-256 small sigma 1. -/
def ssig1 (x : Nat) : Nat := (rotr 17 x) ^^^ (rotr 19 x) ^^^ (x >>> 10)

/-- The 64 SHA-256 round constants. -/
def sha256K : List Nat :=
  [1116352408, 1899447441, 3049323471, 3921009573, 961987163,
   1508970993, 2453635748, 2870763221, 3624381080, 310598401,
   607225278, 1426881987, 1925078388, 2162078206, 2614888103,
   3248222580, 3835390401, 4022224774, 264347078, 604807628,
   770255983, 1249150122, 1555081692, 1996064986, 2554220882,
   2821834349, 2952996808, 3210313671, 3336571891, 3584528711,
   113926993, 338241895, 666307205, 773529912, 1294757372,
   1396182291, 1695183700, 1986661051, 2177026350, 2456956037,
   2730485921, 2820302411, 3259730800, 3345764771, 3516065817,
   3600352804, 4094571909, 275423344, 430227734, 506948616,
   659060556, 883997877, 958139571, 1322822218, 1537002063,
   1747873779, 1955562222, 2024104815, 2227730452, 2361852424,
   2428436474, 2756734187, 3204031479, 3329325298]

/-- The eight 32-bit working variables of SHA-256. -/
structure HashState where
  a : Nat
  b : Nat
  c : Nat
  d : Nat
  e : Nat
  f : Nat
  g : Nat
  h : Nat
deriving Repr, DecidableEq

/-- The SHA-256 initial hash value. -/
def initialHash : HashState :=
  ⟨1779033703, 3144134277, 1013904242, 2773480762,
   1359893119, 2600822924, 528734635, 1541459225⟩

/-- Big-endian 32-bit word number `i` of a 64-byte chunk. -/
def word32At (chunk : List Nat) (i : Nat) : Nat :=
  (chunk.getD (4 * i) 0) <<< 24 ||| (chunk.getD (4 * i + 1) 0) <<< 16 |||
  (chunk.getD (4 * i + 2) 0) <<< 8 ||| chunk.getD (4 * i + 3) 0

/-- The first 16 words of the message schedule: the chunk itself. -/
def initWords (chunk : List Nat) : List Nat := (List.range 16).map (word32At chunk)

/-- Extend a message schedule by one word. -/
def extendWords (ws : List Nat) : List Nat :=
  let i := ws.length
  ws ++ [w32 (ws.getD (i - 16) 0 + ssig0 (ws.getD (i - 15) 0) +
              ws.getD (i - 7) 0 + ssig1 (ws.getD (i - 2) 0))]

/-- Apply a function `n` times. -/
def iterApply {α : Type} (f : α → α) : Nat → α → α
  | 0, x => x
  | n + 1, x => iterApply f n (f x)

/-- The full 64-word message schedule of a chunk. -/
def messageSchedule (chunk : List Nat) : List Nat :=
  iterApply extendWords 48 (initWords chunk)

/-- One SHA-256 round, consuming a (round constant, schedule word) pair. -/
def roundStep (v : HashState) (kw : Nat × Nat) : HashState :=
  let t1 := w32 (v.h + bsig1 v.e + ((v.e &&& v.f) ^^^ (bnot32 v.e &&& v.g)) +
                 kw.1 + kw.2)
  let t2 := w32 (bsig0 v.a + ((v.a &&& v.b) ^^^ (v.a &&& v.c) ^^^ (v.b &&& v.c)))
  ⟨w32 (t1 + t2), v.a, v.b, v.c, w32 (v.d + t1), v.e, v.f, v.g⟩

/-- Compress one 64-byte chunk into the running hash state. -/
def compress (st : HashState) (chunk : List Nat) : HashState :=
  let v := (sha256K.zip (messageSchedule chunk)).foldl roundStep st
  ⟨w32 (st.a + v.a), w32 (st.b + v.b), w32 (st.c + v.c), w32 (st.d + v.d),
   w32 (st.e + v.e), w32 (st.f + v.f), w32 (st.g + v.g), w32 (st.h + v.h)⟩

/-- A natural number as 8 big-endian bytes. -/
def be64 (n : Nat) : List Nat :=
  [(n >>> 56) &&& 255, (n >>> 48) &&& 255, (n >>> 40) &&& 255, (n >>> 32) &&& 255,
   (n >>> 24) &&& 255, (n >>> 16) &&& 255, (n >>> 8) &&& 255, n &&& 255]

/-- SHA-256 padding: a `0x80` byte, zeros to 56 mod 64, the bit length. -/
def padMessage (msg : List Nat) : List Nat :=
  let k := (119 - (msg.length % 64)) % 64
  msg ++ 128 :: List.replicate k 0 ++ be64 (8 * msg.length)

/-- Fold `compress` over the 64-byte chunks of a padded message. -/
def processChunks : Nat → HashState → List Nat → HashState
  | 0, st, _ => st
  | n + 1, st, bytes => processChunks n (compress st (bytes.take 64)) (bytes.drop 64)

/-- SHA-256 of a byte list. -/
def sha256Bytes (msg : List Nat) : HashState :=
  let padded := padMessage msg
  processChunks (padded.length / 64) initialHash padded

/-- A 32-bit word as 4 big-endian bytes. -/
def be32 (w : Nat) : List Nat :=
  [(w >>> 24) &&& 255, (w >>> 16) &&& 255, (w >>> 8) &&& 255, w &&& 255]

/-- The 32 digest bytes of a final hash state. -/
def digestBytes (st : HashState) : List Nat :=
  be32 st.a ++ be32 st.b ++ be32 st.c ++ be32 st.d ++
  be32 st.e ++ be32 st.f ++ be32 st.g ++ be32 st.h

/-- Lower-case hex digit of a value below 16. -/
def hexChar (n : Nat) : Char :=
  if n < 10 then Char.ofNat (48 + n) else Char.ofNat (87 + n)

/-- Lower-case hex rendering of a byte list, as `hexdigest()` produces. -/
def hexOfBytes : List Nat → List Char
  | [] => []
  | b :: bs => hexChar (b / 16) :: hexChar (b % 16) :: hexOfBytes bs

/-- UTF-8 encoding of one character, as Python's `str.encode()`. -/
def utf8EncodeChar (c : Char) : List Nat :=
  let n := c.toNat
  if n < 0x80 then [n]
  else if n < 0x800 then [0xC0 ||| (n >>> 6), 0x80 ||| (n &&& 0x3F)]
  else if n < 0x10000 then
    [0xE0 ||| (n >>> 12), 0x80 ||| ((n >>> 6) &&& 0x3F), 0x80 ||| (n &&& 0x3F)]
  else
    [0xF0 ||| (n >>> 18), 0x80 ||| ((n >>> 12) &&& 0x3F),
     0x80 ||| ((n >>> 6) &&& 0x3F), 0x80 ||| (n &&& 0x3F)]

/-- UTF-8 bytes of a string, as Python's `str.encode()`. -/
def utf8Bytes (s : String) : List Nat := s.data.flatMap utf8EncodeChar

/-- The characters of `hashlib.sha256(s.encode()).hexdigest()`. -/
def sha256HexChars (s : String) : List Char :=
  hexOfBytes (digestBytes (sha256Bytes (utf8Bytes s)))

/-! ### Task documents and the tasks directory (`GitTaskStorage`) -/

/-- A parsed task document: the JSON object `create_task` writes. -/
structure TaskData where
  id : String
  task_name : String
  description : String
  action_required : String
  due_date : Option String
  category : String
  status : String
  project_path : Option String
  parent_task_id : Option String
  created_at : String
  completed_at : Option String
  claude_session_id : Option String
  priority : Int
  metadata : List (String × String)
  completion_report : Option String
deriving Repr, DecidableEq

/-- The `tasks/` directory: file stems paired with their parsed content;
`none` models a file `json.loads` rejects (a corrupt document). The list
order is the directory scan order of `glob("*.json")`. -/
abbrev TasksDir := List (String × Option TaskData)

/-- Python truthiness of an optional string (`None` and `""` are falsy). -/
def truthy : Option String → Bool
  | none => false
  | some s => !(s == "")

/-- Python string comparison: lexicographic on code points. -/
def pyStrLeB : List Char → List Char → Bool
  | [], _ => true
  | _ :: _, [] => false
  | a :: as, b :: bs =>
    if a.toNat < b.toNat then true
    else if b.toNat < a.toNat then false
    else pyStrLeB as bs

/-- `x <= y` for Python strings. -/
def pyStrLe (x y : String) : Bool := pyStrLeB x.data y.data

/-- `_task_id_from_name`: first 12 hex characters of
`sha256((project_path + ":" + task_name).encode()).hexdigest()`. -/
def taskIdFromName (task_name project_path : String) : String :=
  String.mk ((sha256HexChars (project_path ++ ":" ++ task_name)).take 12)

/-- Writing `tasks/<id>.json`: replace the file if present, else create it. -/
def writeFile : TasksDir → String → Option TaskData → TasksDir
  | [], k, v => [(k, v)]
  | (k1, v1) :: rest, k, v =>
    if k1 = k then (k, v) :: rest else (k1, v1) :: writeFile rest k v

/-- Unlinking `tasks/<id>.json`. -/
def removeFile (d : TasksDir) (k : String) : TasksDir :=
  d.filter (fun p => !(p.1 == k))

/-- `create_task`: derive the id, build the fresh document, write its file.
`now` is the `datetime.now().isoformat()` timestamp. The result pairs the new
directory state with the returned id. (`_update_project_stats` and
`_git_commit_and_push` do not touch `tasks/` and are elided.) -/
def createTask (d : TasksDir) (now task_name description action_required : String)
    (due_date : Option String) (category : String)
    (project_path claude_session_id : Option String) (priority : Int)
    (parent_task_id : Option String) (metadata : Option (List (String × String))) :
    TasksDir × String :=
  let task_id := taskIdFromName task_name (project_path.getD "")
  let doc : TaskData :=
    { id := task_id
      task_name := task_name
      description := description
      action_required := action_required
      due_date := due_date
      category := category
      status := "pending"
      project_path := project_path
      parent_task_id := parent_task_id
      created_at := now
      completed_at := none
      claude_session_id := claude_session_id
      priority := priority
      metadata := metadata.getD []
      completion_report := none }
  (writeFile d task_id (some doc), task_id)

/-- The documents a directory scan parses successfully, in scan order. -/
def parseFiles (d : TasksDir) : List TaskData := d.filterMap (fun p => p.2)

/-- The `continue` conditions of the scan loop in `get_tasks`. -/
def filterSkip (status project_path category : Option String)
    (include_subtasks : Bool) (t : TaskData) : Bool :=
  (truthy status && !(t.status == status.getD "")) ||
  (truthy project_path && !(t.project_path == some (project_path.getD ""))) ||
  (truthy category && !(t.category == category.getD "")) ||
  (!include_subtasks && truthy t.parent_task_id)

/-- The sort key of `get_tasks`: `(-priority, created_at)`. -/
def sortKey (t : TaskData) : Int × String := (-t.priority, t.created_at)

/-- Lexicographic order on sort keys (Python tuple comparison). -/
def keyLE (x y : Int × String) : Prop :=
  x.1 < y.1 ∨ (x.1 = y.1 ∧ pyStrLe x.2 y.2 = true)

instance keyLE.decidable (x y : Int × String) : Decidable (keyLE x y) := by
  unfold keyLE; infer_instance

/-- `a` may precede `b` in `tasks.sort(key=..., reverse=True)`: descending
key order (`reverse=True` keeps the original order of equal keys, as does a
stable sort under this total preorder). -/
def taskBefore (a b : TaskData) : Prop := keyLE (sortKey b) (sortKey a)

instance taskBefore.decidable : DecidableRel taskBefore := by
  unfold taskBefore; infer_instance

/-- `a` may precede `b` in `sorted(subtasks, key=lambda t: created_at)`. -/
def subtaskBefore (a b : TaskData) : Prop := pyStrLe a.created_at b.created_at = true

instance subtaskBefore.decidable : DecidableRel subtaskBefore := by
  unfold subtaskBefore; infer_instance

/-- `get_subtasks`: the parsed documents whose `parent_task_id` equals the
given id, ascending by `created_at`. -/
def getSubtasks (d : TasksDir) (parent_task_id : String) : List TaskData :=
  List.insertionSort subtaskBefore
    ((parseFiles d).filter (fun t => t.parent_task_id == some parent_task_id))

/-- The filtered, sorted task list `get_tasks` builds before truncation. -/
def getTasksList (d : TasksDir) (status project_path category : Option String)
    (include_subtasks : Bool) : List TaskData :=
  List.insertionSort taskBefore
    ((parseFiles d).filter
      (fun t => !(filterSkip status project_path category include_subtasks t)))

/-- `get_tasks`: filter, sort, truncate to `limit`, and attach to each task
the `subtasks` list the code stores into `task["subtasks"]`. -/
def getTasks (d : TasksDir) (status project_path category : Option String)
    (limit : Nat) (include_subtasks : Bool) : List (TaskData × List TaskData) :=
  ((getTasksList d status project_path category include_subtasks).take limit).map
    (fun t => (t, getSubtasks d t.id))

/-- `update_task_status`: `False` when the file is missing or unparseable;
otherwise rewrite `status`, set `completed_at` (and, when `report` is truthy,
`completion_report`) only on the `status == "completed"` branch. -/
def updateTaskStatus (d : TasksDir) (now task_id status : String)
    (report : Option String) : TasksDir × Bool :=
  match d.lookup task_id with
  | none => (d, false)
  | some none => (d, false)
  | some (some t) =>
    let t1 := { t with status := status }
    let t2 :=
      if status = "completed" then
        let ta := { t1 with completed_at := some now }
        if truthy report then { ta with completion_report := report } else ta
      else t1
    (writeFile d task_id (some t2), true)

/-- `delete_task`: `False` when the file is missing, or when `json.loads`
raises before the `unlink` (a corrupt document is never deleted); otherwise
remove exactly this task's file — the code consults no other document. -/
def deleteTask (d : TasksDir) (task_id : String) : TasksDir × Bool :=
  match d.lookup task_id with
  | none => (d, false)
  | some none => (d, false)
  | some (some _) => (removeFile d task_id, true)

/-- The counters dictionary of `get_project_stats`; unknown statuses grow
fresh keys via `stats[status] = stats.get(status, 0) + 1`, modelled by the
`others` association list. -/
structure Stats where
  total : Nat
  pending : Nat
  in_progress : Nat
  completed : Nat
  others : List (String × Nat)
deriving Repr, DecidableEq

/-- Increment an association-list counter. -/
def bumpAssoc : List (String × Nat) → String → List (String × Nat)
  | [], s => [(s, 1)]
  | (k, n) :: rest, s =>
    if k = s then (k, n + 1) :: rest else (k, n) :: bumpAssoc rest s

/-- `stats[status] = stats.get(status, 0) + 1`, on the same dict that the
loop's `stats["total"] += 1` also writes: a document whose status is the
literal string "total" therefore increments the returned total a second
time; the statuses with pre-existing keys bump their own counters, and any
other status grows a fresh key, modelled by `others`. -/
def bumpStatus (st : Stats) (status : String) : Stats :=
  if status = "total" then { st with total := st.total + 1 }
  else if status = "pending" then { st with pending := st.pending + 1 }
  else if status = "in_progress" then { st with in_progress := st.in_progress + 1 }
  else if status = "completed" then { st with completed := st.completed + 1 }
  else { st with others := bumpAssoc st.others status }

/-- One iteration of the scan loop of `get_project_stats`. -/
def statsStep (project_path : Option String) (st : Stats)
    (file : String × Option TaskData) : Stats :=
  match file.2 with
  | none => st
  | some t =>
    if truthy project_path && !(t.project_path == some (project_path.getD "")) then st
    else bumpStatus { st with total := st.total + 1 } t.status

/-- `get_project_stats`: a fold of the scan loop over the directory, started
from all-zero counters — the code reads no `projects/` snapshot file. -/
def getProjectStats (d : TasksDir) (project_path : Option String) : Stats :=
  d.foldl (statsStep project_path) ⟨0, 0, 0, 0, []⟩

/-! ### The git subprocess layer (`_git_pull`, `SyncManager.sync_now`) -/

/-- Abstract state of the git working tree behind the store. -/
structure RepoState where
  remoteConfigured : Bool
  rebaseConflicts : Bool
  rebaseInProgress : Bool
deriving Repr, DecidableEq

/-- Effect and exit status of one `git pull --rebase` subprocess: when the
remote holds a diverging commit whose rebase conflicts, git stops mid-rebase
— the rebase stays in progress in the working tree — and exits non-zero;
otherwise the rebase completes cleanly (standard git semantics). -/
def gitPullRebase (r : RepoState) : RepoState × Bool :=
  if r.rebaseConflicts then ({ r with rebaseInProgress := true }, false) else (r, true)

/-- `GitTaskStorage._git_pull`: run `git remote`; when output is non-empty run
`git pull --rebase` with `check=False` and every exception swallowed. The
Python function returns `None`, so the embedding returns only the resulting
repository state plus the trace of git subcommands issued. -/
def gitPull (r : RepoState) : RepoState × List String :=
  if r.remoteConfigured then ((gitPullRebase r).1, ["remote", "pull --rebase"])
  else (r, ["remote"])

/-- `SyncManager.sync_now`: `False` without a remote URL; otherwise run
`git pull --rebase` (a non-zero exit is only logged), optionally commit any
dirty files and push (neither touches the rebase state), and return `True`.
`dirty` is whether `git status --porcelain` printed anything. Result:
final repository state, the returned boolean, the git subcommand trace. -/
def syncNow (r : RepoState) (dirty push : Bool) : RepoState × Bool × List String :=
  if r.remoteConfigured = false then (r, false, [])
  else
    let afterPull := (gitPullRebase r).1
    let commitCmds := if dirty then ["add .", "commit"] else []
    let cmds := "pull --rebase" ::
      (if push then "status --porcelain" :: commitCmds ++ ["push"] else [])
    (afterPull, true, cmds)

/-! ### Concrete states used by witnesses and counterexamples -/

/-- A stored subtask document whose parent id is the non-empty string "P". -/
def tSub : TaskData :=
  { id := "f1", task_name := "s", description := "", action_required := "",
    due_date := none, category := "general", status := "pending",
    project_path := none, parent_task_id := some "P",
    created_at := "2024-01-02T00:00:00", completed_at := none,
    claude_session_id := none, priority := 0, metadata := [],
    completion_report := none }

/-- A one-file directory holding `tSub`. -/
def dSub : TasksDir := [("f1", some tSub)]

/-- A pending task of project "app". -/
def tApp1 : TaskData :=
  { tSub with
    id := "a1"
    task_name := "t1"
    parent_task_id := none
    project_path := some "app"
    created_at := "2024-01-01T00:00:00" }

/-- A completed task of project "app". -/
def tApp2 : TaskData :=
  { tApp1 with
    id := "a2"
    task_name := "t2"
    status := "completed"
    created_at := "2024-01-03T00:00:00"
    completed_at := some "2024-01-04T00:00:00" }

/-- An in-progress task of another project. -/
def tOther : TaskData :=
  { tApp1 with
    id := "a3"
    task_name := "t3"
    status := "in_progress"
    project_path := some "lib"
    created_at := "2024-01-05T00:00:00" }

/-- A mixed directory: three projects' documents and one corrupt file. -/
def dMixed : TasksDir :=
  [("a1", some tApp1), ("zz", none), ("a2", some tApp2), ("a3", some tOther)]

/-- A directory state built by one `create_task` call for project "app". -/
def dClean : TasksDir :=
  (createTask [] "2024-01-01T00:00:00" "t" "" "" none "general" (some "app")
    none 0 none none).1

/-- `dClean` with one additional file that fails to parse. -/
def dCorrupt : TasksDir := dClean ++ [("deadbeef", none)]

/-- A repository with a remote whose diverging commit makes rebase conflict. -/
def repoConflict : RepoState :=
  { remoteConfigured := true, rebaseConflicts := true, rebaseInProgress := false }

/-! ### The spec's from-scratch statistics recomputation (for refinement) -/

/-- The four counters the claims compare, extracted from a `Stats` value. -/
def statsQuad (st : Stats) : Nat × Nat × Nat × Nat :=
  (st.total, st.pending, st.in_progress, st.completed)

/-- Number of documents with the given status. -/
def statusCount (docs : List TaskData) (s : String) : Nat :=
  docs.countP (fun t => t.status == s)

/-- Stated from the spec's words, for comparison with `getProjectStats`:
the task documents currently stored for the given project (all parseable
documents when no project is given). -/
def specProjectDocs (d : TasksDir) (project_path : Option String) : List TaskData :=
  (parseFiles d).filter
    (fun t => match project_path with
      | none => true
      | some s => t.project_path == some s)

/-- Stated from the spec's words, for comparison with `getProjectStats`:
a from-scratch recomputation of {total, pending, in_progress, completed}
over a list of task documents. -/
def specStatsRecompute (docs : List TaskData) : Nat × Nat × Nat × Nat :=
  (docs.length, statusCount docs "pending", statusCount docs "in_progress",
   statusCount docs "completed")

/-- The complement of the `continue` condition of the `get_project_stats`
scan loop: the document survives the project filter. -/
def keepB (project_path : Option String) (t : TaskData) : Bool :=
  !(truthy project_path && !(t.project_path == some (project_path.getD "")))

/-! ### Supporting lemmas -/

/-- FIPS 180-4 test vector: SHA-256 of the empty string. -/
theorem sha256_vector_empty :
    String.mk (sha256HexChars "") =
      "e3b0c44298fc1c149afbf4c8996fb92427ae41e4649b934ca495991b7852b855" := by
  decide

/-- FIPS 180-4 test vector: SHA-256 of "abc". -/
theorem sha256_vector_abc :
    String.mk (sha256HexChars "abc") =
      "ba7816bf8f01cfea414140de5dae2223b00361a396177a9cb410ff61f20015ad" := by
  decide

/-- Hex rendering doubles the length. -/
theorem hexOfBytes_length (bs : List Nat) : (hexOfBytes bs).length = 2 * bs.length := by
  induction bs with
  | nil => rfl
  | cons b t ih => simp [hexOfBytes, ih]; omega

/-- A SHA-256 digest is 32 bytes. -/
theorem digestBytes_length (st : HashState) : (digestBytes st).length = 32 := by
  simp [digestBytes, be32]

/-- A SHA-256 hexdigest is 64 characters. -/
theorem sha256HexChars_length (s : String) : (sha256HexChars s).length = 64 := by
  unfold sha256HexChars
  rw [hexOfBytes_length, digestBytes_length]

/-- Task ids have the fixed width 12. -/
theorem taskIdFromName_length (n p : String) : (taskIdFromName n p).length = 12 := by
  show ((sha256HexChars (p ++ ":" ++ n)).take 12).length = 12
  rw [List.length_take, sha256HexChars_length]
  decide

/-- Looking up a file just written finds the written content. -/
theorem lookup_writeFile (d : TasksDir) (k : String) (v : Option TaskData) :
    (writeFile d k v).lookup k = some v := by
  induction d with
  | nil => simp [writeFile, List.lookup]
  | cons p rest ih =>
    obtain ⟨k1, v1⟩ := p
    by_cases h : k1 = k
    · subst h; simp [writeFile, List.lookup]
    · simp only [writeFile, if_neg h, List.lookup]
      have hne : (k == k1) = false := by simp [Ne.symm h]
      rw [hne]
      exact ih

/-- Python string comparison is total. -/
theorem pyStrLeB_total (x y : List Char) : pyStrLeB x y = true ∨ pyStrLeB y x = true := by
  induction x generalizing y with
  | nil => left; simp [pyStrLeB]
  | cons a as ih =>
    cases y with
    | nil => right; simp [pyStrLeB]
    | cons b bs =>
      by_cases h1 : a.toNat < b.toNat
      · left; simp [pyStrLeB, h1]
      · by_cases h2 : b.toNat < a.toNat
        · right; simp [pyStrLeB, h2]
        · rcases ih bs with h | h
          · left; simp [pyStrLeB, h1, h2, h]
          · right; simp [pyStrLeB, h1, h2, h]

/-- Python string comparison is transitive. -/
theorem pyStrLeB_trans (x y z : List Char) (hxy : pyStrLeB x y = true)
    (hyz : pyStrLeB y z = true) : pyStrLeB x z = true := by
  induction x generalizing y z with
  | nil => simp [pyStrLeB]
  | cons a as ih =>
    cases y with
    | nil => simp [pyStrLeB] at hxy
    | cons b bs =>
      cases z with
      | nil => simp [pyStrLeB] at hyz
      | cons c cs =>
        simp only [pyStrLeB] at hxy hyz ⊢
        split_ifs at hxy hyz ⊢ <;>
          first
          | rfl
          | omega
          | exact ih bs cs hxy hyz

/-- The sort key order of `get_tasks` is total. -/
theorem keyLE_total (x y : Int × String) : keyLE x y ∨ keyLE y x := by
  rcases lt_trichotomy x.1 y.1 with h | h | h
  · exact Or.inl (Or.inl h)
  · rcases pyStrLeB_total x.2.data y.2.data with hs | hs
    · exact Or.inl (Or.inr ⟨h, hs⟩)
    · exact Or.inr (Or.inr ⟨h.symm, hs⟩)
  · exact Or.inr (Or.inl h)

/-- The sort key order of `get_tasks` is transitive. -/
theorem keyLE_trans (x y z : Int × String) (h1 : keyLE x y) (h2 : keyLE y z) :
    keyLE x z := by
  rcases h1 with h1 | ⟨e1, s1⟩
  · rcases h2 with h2 | ⟨e2, s2⟩
    · exact Or.inl (h1.trans h2)
    · exact Or.inl (by rw [← e2]; exact h1)
  · rcases h2 with h2 | ⟨e2, s2⟩
    · exact Or.inl (by rw [e1]; exact h2)
    · exact Or.inr ⟨e1.trans e2, pyStrLeB_trans _ _ _ s1 s2⟩

/-- One scan step of `get_project_stats`, folded over a whole directory: as
long as no parsed document's status is the literal string "total" (which
would collide with the dict's total key and double-count), each counter
ends at its start value plus the matching document count. -/
theorem stats_foldl (p : Option String) (d : TasksDir) :
    ∀ st : Stats, (∀ t ∈ parseFiles d, t.status ≠ "total") →
      statsQuad (d.foldl (statsStep p) st) =
        (st.total + ((parseFiles d).filter (keepB p)).length,
         st.pending + statusCount ((parseFiles d).filter (keepB p)) "pending",
         st.in_progress + statusCount ((parseFiles d).filter (keepB p)) "in_progress",
         st.completed + statusCount ((parseFiles d).filter (keepB p)) "completed") := by
  induction d with
  | nil =>
    intro st hnt
    simp [parseFiles, statusCount, statsQuad]
  | cons file rest ih =>
    intro st hnt
    obtain ⟨nm, c⟩ := file
    cases c with
    | none =>
      have hparse : parseFiles ((nm, (none : Option TaskData)) :: rest) = parseFiles rest := by
        simp [parseFiles]
      have hnt2 : ∀ t ∈ parseFiles rest, t.status ≠ "total" := by
        rw [hparse] at hnt
        exact hnt
      have hstep : statsStep p st (nm, none) = st := rfl
      rw [List.foldl_cons, hstep, ih st hnt2, hparse]
    | some t =>
      have hparse : parseFiles ((nm, some t) :: rest) = t :: parseFiles rest := by
        simp [parseFiles]
      have hnt2 : ∀ u ∈ parseFiles rest, u.status ≠ "total" := by
        intro u hu
        exact hnt u (by rw [hparse]; exact List.mem_cons_of_mem _ hu)
      have htot : t.status ≠ "total" :=
        hnt t (by rw [hparse]; exact List.mem_cons_self _ _)
      by_cases hk : keepB p t = true
      · have hcond : (truthy p && !(t.project_path == some (p.getD ""))) = false := by
          unfold keepB at hk
          cases hx : (truthy p && !(t.project_path == some (p.getD ""))) <;>
            simp [hx] at hk ⊢
        have hstep : statsStep p st (nm, some t) =
            bumpStatus { st with total := st.total + 1 } t.status := by
          simp [statsStep, hcond]
        rw [List.foldl_cons, hstep, ih _ hnt2, hparse]
        simp only [List.filter_cons, hk]
        by_cases hs1 : t.status = "pending"
        · simp [bumpStatus, htot, hs1, statusCount, List.countP_cons]
          omega
        · by_cases hs2 : t.status = "in_progress"
          · simp [bumpStatus, htot, hs1, hs2, statusCount, List.countP_cons]
            omega
          · by_cases hs3 : t.status = "completed"
            · simp [bumpStatus, htot, hs1, hs2, hs3, statusCount, List.countP_cons]
              omega
            · simp [bumpStatus, htot, hs1, hs2, hs3, statusCount, List.countP_cons]
              omega
      · have hcond : (truthy p && !(t.project_path == some (p.getD ""))) = true := by
          unfold keepB at hk
          cases hx : (truthy p && !(t.project_path == some (p.getD ""))) <;>
            simp [hx] at hk ⊢
        have hstep : statsStep p st (nm, some t) = st := by
          simp [statsStep, hcond]
        have hkf : keepB p t = false := by
          cases hx : keepB p t
          · rfl
          · exact absurd hx hk
        rw [List.foldl_cons, hstep, ih st hnt2, hparse]
        simp only [List.filter_cons, hkf]
        simp

/-! ### The claims -/

/-- C1: for every pair (project, name), `create_task` derives the task id as
the first 12 hex characters of the SHA-256 hash of `project + ":" + name` —
a fixed-width (12) deterministic function of the pair — so creating a task
twice with the identical pair yields the same id, and the second call's
fields completely overwrite the first's (the stored document is exactly the
one built from the second call's arguments, no merge). -/
theorem claim1_create_id_and_overwrite (d : TasksDir)
    (now1 now2 task_name : String) (project_path : Option String)
    (desc1 act1 : String) (due1 : Option String) (cat1 : String)
    (sess1 : Option String) (pri1 : Int) (par1 : Option String)
    (meta1 : Option (List (String × String)))
    (desc2 act2 : String) (due2 : Option String) (cat2 : String)
    (sess2 : Option String) (pri2 : Int) (par2 : Option String)
    (meta2 : Option (List (String × String))) :
    let r1 := createTask d now1 task_name desc1 act1 due1 cat1 project_path
      sess1 pri1 par1 meta1
    let r2 := createTask r1.1 now2 task_name desc2 act2 due2 cat2 project_path
      sess2 pri2 par2 meta2
    r2.2 = r1.2
    ∧ r1.2 = String.mk ((sha256HexChars ((project_path.getD "") ++ ":" ++ task_name)).take 12)
    ∧ r1.2.length = 12
    ∧ r2.1.lookup r1.2 = some (some
        { id := r1.2
          task_name := task_name
          description := desc2
          action_required := act2
          due_date := due2
          category := cat2
          status := "pending"
          project_path := project_path
          parent_task_id := par2
          created_at := now2
          completed_at := none
          claude_session_id := sess2
          priority := pri2
          metadata := meta2.getD []
          completion_report := none }) :=
  ⟨rfl, rfl, taskIdFromName_length _ _, lookup_writeFile _ _ _⟩

/-- C2: the claim says `get_tasks` orders by priority descending then
`created_at` descending; evaluated at the spec's own failing input —
priorities {2,5,5,1} with distinct timestamps — the code returns the
priorities ascending, [1,2,5,5] (the `-priority` key combined with
`reverse=True` double-negates), refuting priority-descending order; only
the `created_at`-descending tie-break ("c" before "b") holds. -/
theorem claim2_order_at_failing_input :
    (let s1 := (createTask [] "2024-01-01T00:00:00" "a" "" "" none "general"
        none none 2 none none).1
     let s2 := (createTask s1 "2024-01-02T00:00:00" "b" "" "" none "general"
        none none 5 none none).1
     let s3 := (createTask s2 "2024-01-03T00:00:00" "c" "" "" none "general"
        none none 5 none none).1
     let s4 := (createTask s3 "2024-01-04T00:00:00" "d" "" "" none "general"
        none none 1 none none).1
     (getTasks s4 none none none 100 false).map (fun x => (x.1.priority, x.1.task_name)))
    = [(1, "d"), (2, "a"), (5, "c"), (5, "b")] := by
  decide

/-- C3: the claim says `delete_task(P)` cascades to P's subtask S; evaluated
at a parent with one subtask, the delete returns `True` but removes only the
parent's document: the subtask survives and still appears in the subsequent
`get_tasks(include_subtasks=true)` listing. -/
theorem claim3_delete_at_failing_input :
    (let rP := createTask [] "2024-01-01T00:00:00" "parent" "" "" none
      "general" none none 0 none none
     let rS := createTask rP.1 "2024-01-02T00:00:00" "child" "" "" none
      "general" none none 0 (some rP.2) none
     ((deleteTask rS.1 rP.2).2,
      (getTasks (deleteTask rS.1 rP.2).1 none none none 100 true).map
        (fun x => (x.1.task_name, x.1.parent_task_id))))
    = (true, [("child", some (taskIdFromName "parent" ""))]) := by
  decide

/-- C4: the claim says a subsequent `update_task_status(id, "pending")`
clears `completed_at` and `completion_report`; evaluated at a task completed
with report "x" and then set back to pending, the update returns `True` but
both fields keep their values — the code only ever writes them on the
`status == "completed"` branch and never clears them. -/
theorem claim4_update_at_failing_input :
    (let r := createTask [] "2024-01-01T00:00:00" "t" "" "" none "general"
      none none 0 none none
     let s1 := (updateTaskStatus r.1 "2024-01-02T00:00:00" r.2 "completed"
      (some "x")).1
     let u2 := updateTaskStatus s1 "2024-01-03T00:00:00" r.2 "pending" none
     (u2.2, (u2.1.lookup r.2).map (Option.map
       (fun t => (t.status, t.completed_at, t.completion_report)))))
    = (true, some (some ("pending", some "2024-01-02T00:00:00", some "x"))) := by
  decide

/-- C5 counterexample: the claim quantifies over every task created with a
non-null `parent_task_id`; created with the non-null empty string, the task
nevertheless appears in `get_tasks` without `include_subtasks=true`, because
the code tests Python truthiness, not non-nullness. -/
theorem claim5_counterexample :
    (getTasks (createTask [] "2024-01-01T00:00:00" "child" "" "" none
        "general" none none 0 (some "") none).1
      none none none 100 false).map (fun x => x.1.parent_task_id)
    = [some ""] := by
  decide

/-- C5 (amended): every stored task whose `parent_task_id` is non-null and
non-empty never appears in `get_tasks` unless `include_subtasks=true`, under
any filters and limit; it does appear in `get_subtasks(parent_task_id)`, and
subtasks are returned ascending by `created_at`. -/
theorem claim5_subtask_exclusion (d : TasksDir) (fname : String)
    (t : TaskData) (p : String) (status project_path category : Option String)
    (limit : Nat) (hmem : (fname, some t) ∈ d)
    (hpar : t.parent_task_id = some p) (hp : p ≠ "") :
    (∀ x ∈ getTasks d status project_path category limit false, x.1 ≠ t)
    ∧ t ∈ getSubtasks d p
    ∧ List.Pairwise subtaskBefore (getSubtasks d p) := by
  refine ⟨?_, ?_, ?_⟩
  · intro x hx heq
    unfold getTasks at hx
    rcases List.mem_map.mp hx with ⟨u, hu, rfl⟩
    have hut : u = t := heq
    subst hut
    have hu2 : u ∈ getTasksList d status project_path category false :=
      List.mem_of_mem_take hu
    unfold getTasksList at hu2
    have hu3 : u ∈ (parseFiles d).filter
        (fun t0 => !(filterSkip status project_path category false t0)) :=
      (List.perm_insertionSort _ _).mem_iff.mp hu2
    have hu4 := (List.mem_filter.mp hu3).2
    have hskip : filterSkip status project_path category false u = true := by
      unfold filterSkip truthy
      rw [hpar]
      simp [hp]
    rw [hskip] at hu4
    simp at hu4
  · unfold getSubtasks
    refine (List.perm_insertionSort _ _).mem_iff.mpr ?_
    refine List.mem_filter.mpr ⟨?_, ?_⟩
    · exact List.mem_filterMap.mpr ⟨(fname, some t), hmem, rfl⟩
    · rw [hpar]
      simp
  · unfold getSubtasks
    exact @List.sorted_insertionSort TaskData subtaskBefore
      subtaskBefore.decidable
      ⟨fun a b => pyStrLeB_total a.created_at.data b.created_at.data⟩
      ⟨fun a b c h1 h2 => pyStrLeB_trans _ _ _ h1 h2⟩ _

/-- C5 witness: the amended theorem applied to the concrete one-subtask
directory `dSub`, its parent id "P". -/
theorem claim5_subtask_exclusion_witness :
    ((("f1", some tSub) ∈ dSub) ∧ tSub.parent_task_id = some "P" ∧ "P" ≠ "") ∧
    ((∀ x ∈ getTasks dSub none none none 100 false, x.1 ≠ tSub)
     ∧ tSub ∈ getSubtasks dSub "P"
     ∧ List.Pairwise subtaskBefore (getSubtasks dSub "P")) :=
  ⟨⟨by decide, by decide, by decide⟩,
   claim5_subtask_exclusion dSub "f1" tSub "P" none none none 100
     (by decide) (by decide) (by decide)⟩

/-- C6 counterexample: the original claim fails on the code. A document
whose status is the literal string "total" — reachable because
`update_task_status` validates nothing — collides with the scan dict's
pre-existing total key (`stats[status] = stats.get(status, 0) + 1` runs on
the same dict as `stats["total"] += 1`) and double-increments the returned
total: after one create and one such update, `get_project_stats` reports
total 2 while the from-scratch recomputation over the single stored
document gives total 1. -/
theorem claim6_counterexample :
    (let r := createTask [] "2024-01-01T00:00:00" "t" "" "" none "general"
      (some "app") none 0 none none
     let s1 := (updateTaskStatus r.1 "2024-01-02T00:00:00" r.2 "total" none).1
     (statsQuad (getProjectStats s1 (some "app")),
      specStatsRecompute (specProjectDocs s1 (some "app"))))
    = ((2, 0, 0, 0), (1, 0, 0, 0)) := by
  decide

/-- C6 (amended): for every project and every directory state — hence after
any sequence of create/update/delete operations — in which no stored
document's status is the literal string "total" (the one status string that
collides with the scan dict's pre-existing total key), `get_project_stats`
returns {total, pending, in_progress, completed} equal to a from-scratch
recomputation over the task documents currently stored for that project
(and for the all-projects query); it reads only the task documents, never
a cached snapshot. -/
theorem claim6_stats_fresh_recomputation (d : TasksDir) (s : String)
    (hs : s ≠ "") (hnt : ∀ t ∈ parseFiles d, t.status ≠ "total") :
    statsQuad (getProjectStats d (some s))
      = specStatsRecompute (specProjectDocs d (some s))
    ∧ statsQuad (getProjectStats d none)
      = specStatsRecompute (specProjectDocs d none) := by
  constructor
  · have h0 := stats_foldl (some s) d ⟨0, 0, 0, 0, []⟩ hnt
    have hfil : (parseFiles d).filter (keepB (some s)) = specProjectDocs d (some s) := by
      unfold specProjectDocs
      apply List.filter_congr
      intro t ht
      show keepB (some s) t = (t.project_path == some s)
      unfold keepB truthy
      simp [hs]
    unfold getProjectStats
    rw [h0, hfil]
    simp [specStatsRecompute]
  · have h0 := stats_foldl none d ⟨0, 0, 0, 0, []⟩ hnt
    have hfil : (parseFiles d).filter (keepB none) = specProjectDocs d none := by
      unfold specProjectDocs
      apply List.filter_congr
      intro t ht
      rfl
    unfold getProjectStats
    rw [h0, hfil]
    simp [specStatsRecompute]

/-- C6 witness: the amended theorem applied to the concrete mixed directory
`dMixed` (statuses pending, completed, in_progress — none "total") and the
project "app". -/
theorem claim6_stats_fresh_recomputation_witness :
    ("app" ≠ "" ∧ ∀ t ∈ parseFiles dMixed, t.status ≠ "total") ∧
    (statsQuad (getProjectStats dMixed (some "app"))
       = specStatsRecompute (specProjectDocs dMixed (some "app"))
     ∧ statsQuad (getProjectStats dMixed none)
       = specStatsRecompute (specProjectDocs dMixed none)) :=
  ⟨⟨by decide, by decide⟩,
   claim6_stats_fresh_recomputation dMixed "app" (by decide) (by decide)⟩

/-- C7: the claim says `create_task` rejects or prevents a `parent_task_id`
referring to a task that is itself a subtask; evaluated at a three-create
chain a ← b ← c, every create succeeds and the stored documents show b a
subtask of a while c is a subtask of b — depth 2 is reachable, nothing is
enforced. -/
theorem claim7_depth_at_failing_input :
    (let rA := createTask [] "2024-01-01T00:00:00" "a" "" "" none "general"
      none none 0 none none
     let rB := createTask rA.1 "2024-01-02T00:00:00" "b" "" "" none "general"
      none none 0 (some rA.2) none
     let rC := createTask rB.1 "2024-01-03T00:00:00" "c" "" "" none "general"
      none none 0 (some rB.2) none
     ((rC.1.lookup rB.2).map (Option.map (fun t => t.parent_task_id)),
      (rC.1.lookup rC.2).map (Option.map (fun t => t.parent_task_id))))
    = (some (some (some (taskIdFromName "a" ""))),
       some (some (some (taskIdFromName "b" "")))) := by
  decide

/-- C8: the claim says corrupt documents are skipped AND counted observably;
evaluated at a store holding one well-formed task of project "app" plus one
unparseable file, both `get_project_stats` and `get_tasks` return results
identical to the store without the corrupt file — the skip is real but no
skipped-count exists anywhere in the returned values. -/
theorem claim8_corrupt_at_failing_input :
    getProjectStats dCorrupt (some "app") = getProjectStats dClean (some "app")
    ∧ getProjectStats dCorrupt none = getProjectStats dClean none
    ∧ getTasks dCorrupt none none none 100 true
      = getTasks dClean none none none 100 true := by
  decide

/-- C9: the claim says a conflicted pull is aborted, the tree left in its
pre-pull committed state, and a retryable Conflict surfaced; evaluated at a
repository whose remote holds a diverging conflicting commit, `_git_pull`
leaves the rebase in progress and never issues `git rebase --abort`, and
`sync_now` does the same while returning `True` — no Conflict is surfaced
anywhere. -/
theorem claim9_conflict_at_failing_input :
    (gitPull repoConflict).1.rebaseInProgress = true
    ∧ "rebase --abort" ∉ (gitPull repoConflict).2
    ∧ (syncNow repoConflict false true).2.1 = true
    ∧ (syncNow repoConflict false true).1.rebaseInProgress = true
    ∧ "rebase --abort" ∉ (syncNow repoConflict false true).2.2 := by
  decide

/-- C10: for every call to `create_task`, whatever the arguments, the task
document written has status "pending", `completed_at` null and
`completion_report` null — completion data can only appear through a later
`update_task_status`. -/
theorem claim10_create_initial_fields (d : TasksDir)
    (now task_name description action_required : String)
    (due_date : Option String) (category : String)
    (project_path claude_session_id : Option String) (priority : Int)
    (parent_task_id : Option String)
    (metadata : Option (List (String × String))) :
    let r := createTask d now task_name description action_required due_date
      category project_path claude_session_id priority parent_task_id metadata
    (r.1.lookup r.2).map (Option.map
        (fun t => (t.status, t.completed_at, t.completion_report)))
      = some (some ("pending", none, none)) := by
  simp only [createTask]
  rw [lookup_writeFile]
  rfl
